import Mathlib

/-!
Shallow embedding of the VCDOS driver store (`src/stores/driverStore.ts`).

The store is a zustand state container holding a list of driver records, a
transient `loading` flag and an `error` message.  Each store operation is
translated into a pure function on an explicit `DriverStore` state.  Ambient
effects of the source are made explicit parameters:

* `Math.random().toString(36).substr(2, 9)` (fresh id generation) becomes an
  explicit `newId` / `docId` argument, an oracle supplying the generated id;
* `new Date().toISOString()` becomes an explicit `now` argument;
* a thrown exception becomes an `Except String` result, produced alongside the
  final state (the source sets state and then re-raises to the caller).

JavaScript objects may lack properties at runtime (`{...undefined}` is `{}`),
so document values are modelled with `Option` fields; a JS object spread
`{...b, f := v}` is a Lean structure update.  Object maps keyed by strings are
modelled as association lists in insertion order, with JS computed-key update
semantics (`setKey`): replace in place when the key exists, append otherwise.
-/

inductive DriverStatus where
  | active
  | inactive
  deriving DecidableEq, Repr

inductive DriverOnboardingStatus where
  | pending
  | completed
  deriving DecidableEq, Repr

inductive DriverDocumentStatus where
  | pending
  | verified
  | rejected
  deriving DecidableEq, Repr

/-- A compliance document.  All fields are `Option` because at JS runtime an
object in the document map can lack properties: `verifyDocument` spreads a
possibly-`undefined` lookup, producing an object holding only `status` and
`comments`. -/
structure DriverDocument where
  id : Option String := none
  type : Option String := none
  number : Option String := none
  issuedDate : Option String := none
  expiryDate : Option String := none
  status : Option DriverDocumentStatus := none
  fileUrl : Option String := none
  comments : Option String := none
  deriving DecidableEq, Repr

/-- Driver metadata aggregate (trip count, rating, last-active, verification
flag).  The rating is a decimal number used only as stored data, modelled as a
rational. -/
structure DriverMetadata where
  totalTrips : Nat
  rating : Rat
  lastActive : Option String := none
  completedVerification : Bool
  deriving DecidableEq, Repr

/-- A driver record, as in the `Driver` type used by the store. -/
structure Driver where
  id : String
  name : String
  phone : String
  email : String
  licenseNumber : String
  vendorId : String
  status : DriverStatus
  onboardingStatus : DriverOnboardingStatus
  documents : List (String × DriverDocument)
  vehicleId : Option String := none
  createdAt : String
  updatedAt : String
  metadata : DriverMetadata
  deriving DecidableEq, Repr

/-- The observable store state: the record collection plus the request-status
fields `loading` and `error`. -/
structure DriverStore where
  drivers : List Driver
  loading : Bool
  error : Option String
  deriving DecidableEq, Repr

/-- Lookup in a JS object map: `obj[k]`, `none` when the key is absent. -/
def getKey : List (String × DriverDocument) → String → Option DriverDocument
  | [], _ => none
  | p :: rest, k => if p.1 = k then some p.2 else getKey rest k

/-- JS computed-key update `{...obj, [k]: v}`: replaces the entry in place when
the key exists, appends otherwise. -/
def setKey : List (String × DriverDocument) → String → DriverDocument → List (String × DriverDocument)
  | [], k, v => [(k, v)]
  | p :: rest, k, v => if p.1 = k then (k, v) :: rest else p :: setKey rest k v

/-- Seed document `doc1` of the initial driver. -/
def seedLicenseDocument : DriverDocument :=
  { id := some ("doc1"), type := some ("license"), number := some ("DL123456"),
    expiryDate := some ("2025-12-31"), issuedDate := some ("2020-01-01"),
    status := some DriverDocumentStatus.verified,
    fileUrl := some ("https://example.com/license.pdf") }

/-- Seed document `doc2` of the initial driver. -/
def seedPermitDocument : DriverDocument :=
  { id := some ("doc2"), type := some ("permit"), number := some ("P123"),
    expiryDate := some ("2024-12-31"), issuedDate := some ("2023-01-01"),
    status := some DriverDocumentStatus.verified,
    fileUrl := some ("https://example.com/permit.pdf") }

/-- The seeded driver "John Doe" (`initialDrivers[0]` in the source). -/
def seedDriver : Driver :=
  { id := "1", name := "John Doe", phone := "+1234567890",
    email := "john@example.com", licenseNumber := "DL123456", vendorId := "2",
    status := DriverStatus.active,
    onboardingStatus := DriverOnboardingStatus.completed,
    documents := [(("license"), seedLicenseDocument), (("permit"), seedPermitDocument)],
    createdAt := "2024-03-15T00:00:00Z", updatedAt := "2024-03-15T00:00:00Z",
    metadata := { totalTrips := 150, rating := 4.8,
                  lastActive := some ("2024-03-15T12:00:00Z"),
                  completedVerification := true } }

/-- `initialDrivers` from the source. -/
def initialDrivers : List Driver := [seedDriver]

/-- The store's initial state: seeded drivers, not loading, no error. -/
def initialStore : DriverStore :=
  { drivers := initialDrivers, loading := false, error := none }

/-- The argument of `addDriver`:
`Omit<Driver, 'id' | 'createdAt' | 'updatedAt' | 'status' | 'onboardingStatus'>`.
The omitted fields cannot be supplied; `documents` and `metadata` remain in the
type but are overwritten by `addDriver`. -/
structure DriverDraft where
  name : String
  phone : String
  email : String
  licenseNumber : String
  vendorId : String
  documents : List (String × DriverDocument) := []
  vehicleId : Option String := none
  metadata : DriverMetadata :=
    { totalTrips := 0, rating := 0, completedVerification := false }
  deriving DecidableEq, Repr

/-- The zeroed metadata literal produced by `addDriver`
(`{totalTrips: 0, rating: 0, completedVerification: false}`; `lastActive`
absent). -/
def zeroMetadata : DriverMetadata :=
  { totalTrips := 0, rating := 0, lastActive := none,
    completedVerification := false }

/-- The record literal built inside `addDriver`: the draft's profile fields,
the generated id, forced `inactive`/`pending` statuses, both timestamps `now`,
empty document map and zeroed metadata. -/
def mkNewDriver (draft : DriverDraft) (newId now : String) : Driver :=
  { id := newId, name := draft.name, phone := draft.phone, email := draft.email,
    licenseNumber := draft.licenseNumber, vendorId := draft.vendorId,
    status := DriverStatus.inactive,
    onboardingStatus := DriverOnboardingStatus.pending,
    createdAt := now, updatedAt := now,
    documents := [],
    vehicleId := draft.vehicleId,
    metadata := zeroMetadata }

/-- The `set({ loading: true })` step that opens `addDriver`, `updateDriver`
and `uploadDocument`. -/
def beginOp (s : DriverStore) : DriverStore := { s with loading := true }

/-- The `try` body of `addDriver`, acting on the post-`beginOp` state:
appends the new record and clears `loading`.  The body is a total pure
function, so the `catch` branch of the source (set `error` and re-raise) has
no corresponding case. -/
def addDriverBody (s1 : DriverStore) (draft : DriverDraft) (newId now : String) :
    DriverStore × Driver :=
  let d := mkNewDriver draft newId now
  ({ s1 with drivers := s1.drivers ++ [d], loading := false }, d)

/-- `addDriver` from the source. -/
def addDriver (s : DriverStore) (draft : DriverDraft) (newId now : String) :
    DriverStore × Driver :=
  addDriverBody (beginOp s) draft newId now

/-- `Partial<Driver>`: every field optional; `none` means the key is absent
from the update object. -/
structure DriverPatch where
  id : Option String := none
  name : Option String := none
  phone : Option String := none
  email : Option String := none
  licenseNumber : Option String := none
  vendorId : Option String := none
  status : Option DriverStatus := none
  onboardingStatus : Option DriverOnboardingStatus := none
  documents : Option (List (String × DriverDocument)) := none
  vehicleId : Option (Option String) := none
  createdAt : Option String := none
  updatedAt : Option String := none
  metadata : Option DriverMetadata := none
  deriving DecidableEq, Repr

/-- The spread merge `{...driver, ...updates}`: each field supplied by the
patch overrides the record's field. -/
def applyPatch (d : Driver) (u : DriverPatch) : Driver :=
  { id := u.id.getD d.id, name := u.name.getD d.name,
    phone := u.phone.getD d.phone, email := u.email.getD d.email,
    licenseNumber := u.licenseNumber.getD d.licenseNumber,
    vendorId := u.vendorId.getD d.vendorId,
    status := u.status.getD d.status,
    onboardingStatus := u.onboardingStatus.getD d.onboardingStatus,
    documents := u.documents.getD d.documents,
    vehicleId := u.vehicleId.getD d.vehicleId,
    createdAt := u.createdAt.getD d.createdAt,
    updatedAt := u.updatedAt.getD d.updatedAt,
    metadata := u.metadata.getD d.metadata }

/-- `{...driver, ...updates, updatedAt: new Date().toISOString()}` — the merge
used by `updateDriver`; `updatedAt` comes last, so it always wins. -/
def mergeUpdate (d : Driver) (u : DriverPatch) (now : String) : Driver :=
  { applyPatch d u with updatedAt := now }

/-- The value left in the `updatedDriver` variable after the map of
`updateDriver` ran: each matching element overwrites it, so the last match
(if any) remains. -/
def lastMatch : List Driver → String → Option Driver
  | [], _ => none
  | d :: rest, i =>
      match lastMatch rest i with
      | some w => some w
      | none => if d.id = i then some d else none

/-- The `try` body of `updateDriver` acting on the post-`beginOp` state: maps
the merge over matching records and clears `loading`; when no record matched,
the source throws `Error('Driver not found')`, which its `catch` turns into
`error := 'Failed to update driver'` before re-raising. -/
def updateDriverBody (s1 : DriverStore) (i : String) (u : DriverPatch) (now : String) :
    DriverStore × Except String Driver :=
  let mapped := s1.drivers.map (fun d => if d.id = i then mergeUpdate d u now else d)
  match (lastMatch s1.drivers i).map (fun d => mergeUpdate d u now) with
  | some r => ({ s1 with drivers := mapped, loading := false }, Except.ok r)
  | none =>
      ({ s1 with drivers := mapped, loading := false,
                 error := some ("Failed to update driver") },
       Except.error ("Driver not found"))

/-- `updateDriver` from the source. -/
def updateDriver (s : DriverStore) (i : String) (u : DriverPatch) (now : String) :
    DriverStore × Except String Driver :=
  updateDriverBody (beginOp s) i u now

/-- The argument of `uploadDocument`: `Omit<DriverDocument, 'id'>` with the
fields the document type declares. -/
structure DriverDocumentDraft where
  type : String
  number : String
  issuedDate : String
  expiryDate : String
  status : DriverDocumentStatus
  fileUrl : String
  comments : Option String := none
  deriving DecidableEq, Repr

/-- `{...document, id: documentId, status: 'pending'}` — the stored document
built by `uploadDocument`. -/
def draftToDocument (draft : DriverDocumentDraft) (docId : String) : DriverDocument :=
  { id := some docId, type := some draft.type, number := some draft.number,
    issuedDate := some draft.issuedDate, expiryDate := some draft.expiryDate,
    status := some DriverDocumentStatus.pending,
    fileUrl := some draft.fileUrl, comments := draft.comments }

/-- The `try` body of `uploadDocument` acting on the post-`beginOp` state:
stores the new document under the key `draft.type` in the matching driver's
map and refreshes that driver's `updatedAt`; clears `loading`. -/
def uploadDocumentBody (s1 : DriverStore) (driverId : String)
    (draft : DriverDocumentDraft) (docId now : String) : DriverStore :=
  { s1 with
    drivers := s1.drivers.map (fun d =>
      if d.id = driverId then
        { d with documents := setKey d.documents draft.type (draftToDocument draft docId),
                 updatedAt := now }
      else d),
    loading := false }

/-- `uploadDocument` from the source. -/
def uploadDocument (s : DriverStore) (driverId : String)
    (draft : DriverDocumentDraft) (docId now : String) : DriverStore :=
  uploadDocumentBody (beginOp s) driverId draft docId now

/-- `deleteDriver` from the source: filters the record out; touches neither
`loading` nor `error`. -/
def deleteDriver (s : DriverStore) (i : String) : DriverStore :=
  { s with drivers := s.drivers.filter (fun d => d.id ≠ i) }

/-- `getDriver` from the source. -/
def getDriver (s : DriverStore) (i : String) : Option Driver :=
  s.drivers.find? (fun d => d.id = i)

/-- The empty JS object `{}`: a document with every property absent (what the
spread of an `undefined` lookup produces). -/
def emptyDocument : DriverDocument := { }

/-- `verifyDocument` from the source: overlays `status`/`comments` on
`d.documents[documentId]` (an `undefined` lookup spreads to the empty object)
and stores the result back under the key `documentId`.  Neither `updatedAt`
nor `loading`/`error` are touched. -/
def verifyDocument (s : DriverStore) (driverId documentId : String)
    (status : DriverDocumentStatus) (comments : Option String) : DriverStore :=
  { s with
    drivers := s.drivers.map (fun d =>
      if d.id = driverId then
        { d with documents := setKey d.documents documentId (
            { (getKey d.documents documentId).getD emptyDocument with
                status := some status, comments := comments }) }
      else d) }

/-- `assignVehicle` from the source. -/
def assignVehicle (s : DriverStore) (driverId vehicleId : String) : DriverStore :=
  { s with drivers := s.drivers.map (fun d =>
      if d.id = driverId then { d with vehicleId := some vehicleId } else d) }

/-- `unassignVehicle` from the source. -/
def unassignVehicle (s : DriverStore) (driverId : String) : DriverStore :=
  { s with drivers := s.drivers.map (fun d =>
      if d.id = driverId then { d with vehicleId := none } else d) }

/-- `updateOnboardingStatus` from the source. -/
def updateOnboardingStatus (s : DriverStore) (driverId : String)
    (status : DriverOnboardingStatus) : DriverStore :=
  { s with drivers := s.drivers.map (fun d =>
      if d.id = driverId then { d with onboardingStatus := status } else d) }

/-- `getDriversByVendor` from the source. -/
def getDriversByVendor (s : DriverStore) (vendorId : String) : List Driver :=
  s.drivers.filter (fun d => d.vendorId = vendorId)

/-- `getActiveDrivers` from the source. -/
def getActiveDrivers (s : DriverStore) : List Driver :=
  s.drivers.filter (fun d => d.status = DriverStatus.active)

/-- `getPendingVerifications` from the source: drivers some document of which
is `pending`. -/
def getPendingVerifications (s : DriverStore) : List Driver :=
  s.drivers.filter (fun d =>
    d.documents.any (fun p => p.2.status = some DriverDocumentStatus.pending))

/-! ## Helper lemmas about the embedded operations -/

theorem getKey_setKey_self (m : List (String × DriverDocument)) (k : String)
    (v : DriverDocument) : getKey (setKey m k v) k = some v := by
  induction m with
  | nil => simp [setKey, getKey]
  | cons p rest ih =>
      by_cases h : p.1 = k
      · simp [setKey, h, getKey]
      · simp [setKey, h, getKey, ih]

theorem getKey_setKey_ne (m : List (String × DriverDocument)) (k k' : String)
    (v : DriverDocument) (h : k' ≠ k) :
    getKey (setKey m k v) k' = getKey m k' := by
  have h2 : k ≠ k' := Ne.symm h
  induction m with
  | nil => simp [setKey, getKey, h2]
  | cons p rest ih =>
      by_cases hp : p.1 = k
      · subst hp
        simp [setKey, getKey, h2]
      · simp [setKey, hp, getKey, ih]

theorem lastMatch_eq_none (l : List Driver) (i : String)
    (h : ∀ d ∈ l, d.id ≠ i) : lastMatch l i = none := by
  induction l with
  | nil => rfl
  | cons d rest ih =>
      have hd := h d (List.mem_cons_self d rest)
      have hr : lastMatch rest i = none :=
        ih (fun x hx => h x (List.mem_cons_of_mem d hx))
      simp [lastMatch, hr, hd]

theorem lastMatch_spec (l : List Driver) (i : String)
    (h : ∃ d ∈ l, d.id = i) :
    ∃ w, lastMatch l i = some w ∧ w ∈ l ∧ w.id = i := by
  induction l with
  | nil => simp at h
  | cons d rest ih =>
      by_cases hr : ∃ x ∈ rest, x.id = i
      · obtain ⟨w, hw, hwm, hwi⟩ := ih hr
        exact ⟨w, by simp [lastMatch, hw], List.mem_cons_of_mem d hwm, hwi⟩
      · have hnone : lastMatch rest i = none := by
          refine lastMatch_eq_none rest i ?_
          push_neg at hr
          exact hr
        have hd : d.id = i := by
          rcases h with ⟨x, hx, hxi⟩
          rcases List.mem_cons.mp hx with h1 | h2
          · exact h1 ▸ hxi
          · exact absurd ⟨x, h2, hxi⟩ hr
        exact ⟨d, by simp [lastMatch, hnone, hd], List.mem_cons_self d rest, hd⟩

theorem map_no_match (l : List Driver) (i : String) (f : Driver → Driver)
    (h : ∀ d ∈ l, d.id ≠ i) :
    (l.map fun d => if d.id = i then f d else d) = l := by
  induction l with
  | nil => rfl
  | cons d rest ih =>
      rw [List.map_cons, if_neg (h d (List.mem_cons_self d rest)),
        ih (fun x hx => h x (List.mem_cons_of_mem d hx))]

theorem map_field_eq {α : Type} (l : List Driver) (i : String)
    (f : Driver → Driver) (g : Driver → α) (hf : ∀ d, g (f d) = g d) :
    ((l.map fun d => if d.id = i then f d else d).map g) = l.map g := by
  induction l with
  | nil => rfl
  | cons d rest ih =>
      by_cases h : d.id = i <;> simp [h, hf, ih]

/-! ## Concrete fixtures used by witnesses and counterexamples -/

/-- A concrete valid add-draft. -/
def draft0 : DriverDraft :=
  { name := "Alice", phone := "+911", email := "alice@example.com",
    licenseNumber := "DL999", vendorId := "2" }

/-- The concrete partial update `{name: "X"}`. -/
def namePatch (x : String) : DriverPatch := { name := some x }

/-- The concrete partial update `{id: "99"}` (legal for `Partial<Driver>`). -/
def idPatch : DriverPatch := { id := some ("99") }

/-- A concrete document draft of type `license`. -/
def draftDoc0 : DriverDocumentDraft :=
  { type := "license", number := "N1", issuedDate := "2020-01-01",
    expiryDate := "2030-01-01", status := DriverDocumentStatus.verified,
    fileUrl := "https://example.com/new.pdf" }

/-- A store whose `loading` flag is set. -/
def loadingStore : DriverStore :=
  { drivers := [], loading := true, error := none }

/-- A store carrying a stale error message. -/
def staleErrorStore : DriverStore :=
  { drivers := [], loading := false, error := some ("previous failure") }

example : mergeUpdate seedDriver (namePatch ("X")) ("T") =
    { seedDriver with name := "X", updatedAt := "T" } := rfl

example : (addDriver initialStore draft0 ("z1") ("T")).2.id = "z1" := rfl

example : lastMatch initialDrivers ("1") = some seedDriver := rfl

example : getDriver initialStore ("1") = some seedDriver := rfl

/-! ## Claim theorems -/

/-- C10: `addDriver` always succeeds: it appends exactly one record (the one
it returns) to the collection and never sets the `error` field.  The `try`
body of the source is a total pure computation, so its `catch` branch (which
would set `error := 'Failed to add driver'` and re-raise) is unreachable: the
embedding of the body needs no failure case at all. -/
theorem addDriver_never_fails (s : DriverStore) (draft : DriverDraft)
    (newId now : String) :
    (addDriver s draft newId now).1.drivers = s.drivers ++ [mkNewDriver draft newId now]
    ∧ (addDriver s draft newId now).2 = mkNewDriver draft newId now
    ∧ (addDriver s draft newId now).1.error = s.error :=
  ⟨rfl, rfl, rfl⟩

/-- C1 counterexample: the generated id is an oracle input with no uniqueness
check in the code (`Math.random().toString(36).substr(2, 9)`), so when the
generator returns the id of the seeded driver (`"1"`), `addDriver` creates a
record whose id IS equal to an id already present in the collection. -/
theorem addDriver_id_collision :
    ∃ d ∈ initialStore.drivers,
      d.id = (addDriver initialStore draft0 ("1") ("2024-06-01T00:00:00Z")).2.id := by
  refine ⟨seedDriver, ?_, rfl⟩
  simp [initialStore, initialDrivers]

/-- C1 (amended): provided the generated id differs from every id already in
the collection, `addDriver` returns a record whose status is `inactive`,
onboarding status is `pending`, document map is empty, metadata is zeroed,
both timestamps equal the current time, and whose id differs from every id
already present; the record is appended to the collection. -/
theorem addDriver_fresh_spec (s : DriverStore) (draft : DriverDraft)
    (newId now : String) (h : ∀ d ∈ s.drivers, d.id ≠ newId) :
    (addDriver s draft newId now).2.status = DriverStatus.inactive
    ∧ (addDriver s draft newId now).2.onboardingStatus = DriverOnboardingStatus.pending
    ∧ (addDriver s draft newId now).2.documents = []
    ∧ (addDriver s draft newId now).2.metadata = zeroMetadata
    ∧ (addDriver s draft newId now).2.createdAt = now
    ∧ (addDriver s draft newId now).2.updatedAt = now
    ∧ (∀ d ∈ s.drivers, d.id ≠ (addDriver s draft newId now).2.id)
    ∧ (addDriver s draft newId now).1.drivers
        = s.drivers ++ [(addDriver s draft newId now).2] := by
  exact ⟨rfl, rfl, rfl, rfl, rfl, rfl, fun d hd => h d hd, rfl⟩

/-- C1 witness: `addDriver_fresh_spec` applied to the seeded store with the
fresh id `"z1"`, its freshness hypothesis discharged by `decide`. -/
theorem addDriver_fresh_spec_witness :
    (addDriver initialStore draft0 ("z1") ("T1")).2.status = DriverStatus.inactive
    ∧ (addDriver initialStore draft0 ("z1") ("T1")).1.drivers
        = initialStore.drivers ++ [(addDriver initialStore draft0 ("z1") ("T1")).2] := by
  have hs := addDriver_fresh_spec initialStore draft0 ("z1") ("T1") (by decide)
  exact ⟨hs.1, hs.2.2.2.2.2.2.2⟩

/-- C3: `updateDriver` on an id absent from the collection raises the
`Driver not found` failure to the caller and leaves the driver collection
unchanged (snapshot equality).  (The shared `error` field is additionally set
to `Failed to update driver` by the catch block, but the record collection is
untouched.) -/
theorem updateDriver_not_found (s : DriverStore) (i : String) (u : DriverPatch)
    (now : String) (h : ∀ d ∈ s.drivers, d.id ≠ i) :
    (updateDriver s i u now).2 = Except.error ("Driver not found")
    ∧ (updateDriver s i u now).1.drivers = s.drivers := by
  have hl : lastMatch s.drivers i = none := lastMatch_eq_none s.drivers i h
  have hm : (s.drivers.map fun d => if d.id = i then mergeUpdate d u now else d)
      = s.drivers := map_no_match s.drivers i (fun d => mergeUpdate d u now) h
  constructor
  · simp [updateDriver, updateDriverBody, beginOp, hl]
  · simp [updateDriver, updateDriverBody, beginOp, hl, hm]

/-- C3 witness: `updateDriver_not_found` on the seeded store at the absent id
`"zz"`, the absence hypothesis discharged by `decide`. -/
theorem updateDriver_not_found_witness :
    (updateDriver initialStore ("zz") (namePatch ("X")) ("T3")).2
        = Except.error ("Driver not found")
    ∧ (updateDriver initialStore ("zz") (namePatch ("X")) ("T3")).1.drivers
        = initialStore.drivers := by
  have hs := updateDriver_not_found initialStore ("zz") (namePatch ("X")) ("T3") (by decide)
  exact ⟨hs.1, hs.2⟩

/-- Shared helper: the value of `updateDriver` when some record matches. -/
theorem updateDriver_found_eq (s : DriverStore) (i : String) (u : DriverPatch)
    (now : String) (w : Driver) (hw : lastMatch s.drivers i = some w) :
    updateDriver s i u now
      = ({ s with
            drivers := s.drivers.map (fun d => if d.id = i then mergeUpdate d u now else d),
            loading := false },
         Except.ok (mergeUpdate w u now)) := by
  unfold updateDriver updateDriverBody beginOp
  simp [hw]

/-- C2: for a present id, `updateDriver(id, {name: "X"})` rewrites the
collection so that exactly the records with that id change, and they change
only in `name` and `updatedAt`; every other record is mapped to itself; the
updated record (built from a record of the old collection with that id) is
returned. -/
theorem updateDriver_name_frame (s : DriverStore) (i x now : String)
    (h : ∃ d ∈ s.drivers, d.id = i) :
    (updateDriver s i (namePatch x) now).1.drivers
      = s.drivers.map (fun d =>
          if d.id = i then { d with name := x, updatedAt := now } else d)
    ∧ ∃ old ∈ s.drivers, old.id = i ∧
        (updateDriver s i (namePatch x) now).2
          = Except.ok ({ old with name := x, updatedAt := now }) := by
  obtain ⟨w, hw, hwm, hwi⟩ := lastMatch_spec s.drivers i h
  have he := updateDriver_found_eq s i (namePatch x) now w hw
  constructor
  · rw [he]
    rfl
  · refine ⟨w, hwm, hwi, ?_⟩
    rw [he]
    rfl

/-- C2 witness: `updateDriver_name_frame` on the seeded store at id `"1"`. -/
theorem updateDriver_name_frame_witness :
    (updateDriver initialStore ("1") (namePatch ("X")) ("T2")).1.drivers
      = initialStore.drivers.map (fun d =>
          if d.id = ("1") then { d with name := "X", updatedAt := "T2" } else d) := by
  have h : ∃ d ∈ initialStore.drivers, d.id = ("1") :=
    ⟨seedDriver, by simp [initialStore, initialDrivers], rfl⟩
  exact (updateDriver_name_frame initialStore ("1") ("X") ("T2") h).1

/-- C5 counterexample: `Partial<Driver>` may supply `id`, and `updateDriver`
merges it: `updateDriver("1", {id: "99"})` returns the record of driver `"1"`
with its identifier changed to `"99"`. -/
theorem updateDriver_can_change_id :
    (updateDriver initialStore ("1") idPatch ("T4")).2
      = Except.ok ({ seedDriver with id := "99", updatedAt := "T4" })
    ∧ ("99" : String) ≠ ("1") := by
  constructor
  · rfl
  · decide

/-- Shared helper: the value of `updateDriver` when no record matches. -/
theorem updateDriver_notfound_eq (s : DriverStore) (i : String) (u : DriverPatch)
    (now : String) (hw : lastMatch s.drivers i = none) :
    updateDriver s i u now
      = ({ s with
            drivers := s.drivers.map (fun d => if d.id = i then mergeUpdate d u now else d),
            loading := false, error := some ("Failed to update driver") },
         Except.error ("Driver not found")) := by
  unfold updateDriver updateDriverBody beginOp
  simp [hw]

/-- C5 (amended): `updateDriver(id, partialFields)` preserves every record's
identifier provided the partial-fields argument does not itself supply an
`id`; the record it returns then still has identifier `id`.  The remaining
mutators (`assignVehicle`, `unassignVehicle`, `updateOnboardingStatus`,
`verifyDocument`, `uploadDocument`) never change any record's identifier.
(Unamended, the claim is false: `Partial<Driver>` may carry `id`, see the
counterexample.) -/
theorem driverId_immutable (s : DriverStore) (i now v did docId : String)
    (u : DriverPatch) (ddraft : DriverDocumentDraft) (st : DriverDocumentStatus)
    (cm : Option String) (ob : DriverOnboardingStatus)
    (h1 : ∃ d ∈ s.drivers, d.id = i) (h2 : u.id = none) :
    (∀ r, (updateDriver s i u now).2 = Except.ok r → r.id = i)
    ∧ (updateDriver s i u now).1.drivers.map (fun d => d.id)
        = s.drivers.map (fun d => d.id)
    ∧ (assignVehicle s i v).drivers.map (fun d => d.id)
        = s.drivers.map (fun d => d.id)
    ∧ (unassignVehicle s i).drivers.map (fun d => d.id)
        = s.drivers.map (fun d => d.id)
    ∧ (updateOnboardingStatus s i ob).drivers.map (fun d => d.id)
        = s.drivers.map (fun d => d.id)
    ∧ (verifyDocument s i did st cm).drivers.map (fun d => d.id)
        = s.drivers.map (fun d => d.id)
    ∧ (uploadDocument s i ddraft docId now).drivers.map (fun d => d.id)
        = s.drivers.map (fun d => d.id) := by
  obtain ⟨w, hw, hwm, hwi⟩ := lastMatch_spec s.drivers i h1
  have he := updateDriver_found_eq s i u now w hw
  have hid : ∀ d : Driver, (mergeUpdate d u now).id = d.id := by
    intro d
    simp [mergeUpdate, applyPatch, h2]
  refine ⟨?_, ?_, ?_, ?_, ?_, ?_, ?_⟩
  · intro r hr
    rw [he] at hr
    have h3 : Except.ok (mergeUpdate w u now) = Except.ok r := hr
    have h4 := Except.ok.inj h3
    rw [← h4, hid w, hwi]
  · rw [he]
    exact map_field_eq s.drivers i _ _ hid
  · exact map_field_eq s.drivers i _ _ (fun d => rfl)
  · exact map_field_eq s.drivers i _ _ (fun d => rfl)
  · exact map_field_eq s.drivers i _ _ (fun d => rfl)
  · exact map_field_eq s.drivers i _ _ (fun d => rfl)
  · exact map_field_eq s.drivers i _ _ (fun d => rfl)

/-- C5 witness: `driverId_immutable` on the seeded store at id `"1"` with the
patch `{name: "X"}` (which supplies no `id`). -/
theorem driverId_immutable_witness :
    (updateDriver initialStore ("1") (namePatch ("X")) ("T4a")).1.drivers.map (fun d => d.id)
      = initialStore.drivers.map (fun d => d.id) := by
  have h1 : ∃ d ∈ initialStore.drivers, d.id = ("1") :=
    ⟨seedDriver, by simp [initialStore, initialDrivers], rfl⟩
  exact (driverId_immutable initialStore ("1") ("T4a") ("V9") ("doc1") ("d7")
    (namePatch ("X")) draftDoc0 DriverDocumentStatus.verified none
    DriverOnboardingStatus.pending h1 rfl).2.1

/-- C4 (code bug): the spec's invariant says `updatedAt` must be refreshed on
every mutation, but `assignVehicle`, `unassignVehicle`,
`updateOnboardingStatus` and `verifyDocument` all leave every record's
`updatedAt` exactly as it was; concretely, `assignVehicle('1', 'V9')` on the
seeded store mutates driver `"1"` (its `vehicleId` becomes `'V9'`) while its
`updatedAt` stays at the seeded `2024-03-15T00:00:00Z`. -/
theorem mutationsDoNotRefreshUpdatedAt (s : DriverStore) (i v did : String)
    (st : DriverDocumentStatus) (cm : Option String) (ob : DriverOnboardingStatus) :
    (assignVehicle s i v).drivers.map (fun d => d.updatedAt)
        = s.drivers.map (fun d => d.updatedAt)
    ∧ (unassignVehicle s i).drivers.map (fun d => d.updatedAt)
        = s.drivers.map (fun d => d.updatedAt)
    ∧ (updateOnboardingStatus s i ob).drivers.map (fun d => d.updatedAt)
        = s.drivers.map (fun d => d.updatedAt)
    ∧ (verifyDocument s i did st cm).drivers.map (fun d => d.updatedAt)
        = s.drivers.map (fun d => d.updatedAt)
    ∧ (∃ d ∈ (assignVehicle initialStore ("1") ("V9")).drivers,
        d.vehicleId = some ("V9") ∧ d.updatedAt = ("2024-03-15T00:00:00Z")) := by
  refine ⟨map_field_eq s.drivers i _ _ (fun d => rfl),
          map_field_eq s.drivers i _ _ (fun d => rfl),
          map_field_eq s.drivers i _ _ (fun d => rfl),
          map_field_eq s.drivers i _ _ (fun d => rfl), ?_⟩
  refine ⟨{ seedDriver with vehicleId := some ("V9") }, ?_, rfl, rfl⟩
  simp [assignVehicle, initialStore, initialDrivers, seedDriver]

/-- C6: for a present driver id, `uploadDocument` stores the draft with the
freshly generated id and status forced to `pending` under the key equal to the
draft's declared type (overwriting any prior document of that type — the
lookup at that key now yields exactly the new document, all other keys are
untouched) and refreshes that driver's `updatedAt`; for an absent driver id
the record collection and the error field are unchanged and no failure is
raised (the embedding of the operation is total). -/
theorem uploadDocument_spec (s : DriverStore) (driverId : String)
    (draft : DriverDocumentDraft) (docId now : String) :
    ((∀ d ∈ s.drivers, d.id ≠ driverId) →
      (uploadDocument s driverId draft docId now).drivers = s.drivers
      ∧ (uploadDocument s driverId draft docId now).error = s.error)
    ∧ (∀ old ∈ s.drivers, old.id = driverId →
      ∃ newd ∈ (uploadDocument s driverId draft docId now).drivers,
        getKey newd.documents draft.type = some (draftToDocument draft docId)
        ∧ (draftToDocument draft docId).status = some DriverDocumentStatus.pending
        ∧ (draftToDocument draft docId).id = some docId
        ∧ (∀ k, k ≠ draft.type → getKey newd.documents k = getKey old.documents k)
        ∧ newd.updatedAt = now) := by
  constructor
  · intro h
    exact ⟨map_no_match s.drivers driverId _ h, rfl⟩
  · intro old hmem hold
    have hmm : (if old.id = driverId
        then { old with
               documents := setKey old.documents draft.type (draftToDocument draft docId),
               updatedAt := now }
        else old) ∈ (uploadDocument s driverId draft docId now).drivers :=
      List.mem_map_of_mem _ hmem
    rw [if_pos hold] at hmm
    refine ⟨_, hmm, getKey_setKey_self _ _ _, rfl, rfl, ?_, rfl⟩
    intro k hk
    exact getKey_setKey_ne old.documents draft.type k (draftToDocument draft docId) hk

/-- C6 witness: `uploadDocument_spec` on the seeded store, for the absent id
`"zz"` (collection unchanged) and the present id `"1"` (the `license` key now
holds the freshly stamped pending document). -/
theorem uploadDocument_spec_witness :
    ((uploadDocument initialStore ("zz") draftDoc0 ("d9") ("T5")).drivers
        = initialStore.drivers)
    ∧ ∃ newd ∈ (uploadDocument initialStore ("1") draftDoc0 ("d9") ("T5")).drivers,
        getKey newd.documents ("license") = some (draftToDocument draftDoc0 ("d9")) := by
  constructor
  · exact ((uploadDocument_spec initialStore ("zz") draftDoc0 ("d9") ("T5")).1 (by decide)).1
  · have hmem : seedDriver ∈ initialStore.drivers := by simp [initialStore, initialDrivers]
    obtain ⟨newd, hn, hget, -⟩ :=
      (uploadDocument_spec initialStore ("1") draftDoc0 ("d9") ("T5")).2 seedDriver hmem rfl
    exact ⟨newd, hn, hget⟩

/-- C7: when `verifyDocument` is called with a `documentId` that is not a key
of the target driver's document map (the map is keyed by document TYPE, so
this is the normal case), it does not fail and does not leave the map
unchanged: it inserts a NEW entry under the key `documentId` whose only
populated fields are the given status and comments — id, type, number, dates
and file reference are all absent — and the driver's `updatedAt` is NOT
refreshed. -/
theorem verifyDocument_inserts_bare_entry (s : DriverStore) (driverId did : String)
    (st : DriverDocumentStatus) (cm : Option String) (old : Driver)
    (hmem : old ∈ s.drivers) (hid : old.id = driverId)
    (habs : getKey old.documents did = none) :
    ∃ newd ∈ (verifyDocument s driverId did st cm).drivers,
      getKey newd.documents did
          = some ({ emptyDocument with status := some st, comments := cm })
      ∧ newd.updatedAt = old.updatedAt
      ∧ (∀ k, k ≠ did → getKey newd.documents k = getKey old.documents k)
      ∧ (∃ doc, getKey newd.documents did = some doc ∧ doc.id = none ∧ doc.type = none
          ∧ doc.number = none ∧ doc.issuedDate = none ∧ doc.expiryDate = none
          ∧ doc.fileUrl = none ∧ doc.status = some st ∧ doc.comments = cm) := by
  have hmm : (if old.id = driverId
      then { old with documents := setKey old.documents did (
          { (getKey old.documents did).getD emptyDocument with
              status := some st, comments := cm }) }
      else old) ∈ (verifyDocument s driverId did st cm).drivers :=
    List.mem_map_of_mem _ hmem
  rw [if_pos hid, habs] at hmm
  refine ⟨_, hmm, ?_, rfl, ?_, ?_⟩
  · exact getKey_setKey_self _ _ _
  · intro k hk
    exact getKey_setKey_ne old.documents did k _ hk
  · exact ⟨_, getKey_setKey_self _ _ _, rfl, rfl, rfl, rfl, rfl, rfl, rfl, rfl⟩

/-- C7 witness: `verifyDocument_inserts_bare_entry` on the seeded store: the map
of driver `"1"` is keyed by `license`/`permit`, so the document id `"doc1"` is
not a key, and verification inserts a fresh partial entry under `"doc1"`. -/
theorem verifyDocument_inserts_bare_entry_witness :
    ∃ newd ∈ (verifyDocument initialStore ("1") ("doc1")
        DriverDocumentStatus.rejected (some ("bad"))).drivers,
      getKey newd.documents ("doc1")
        = some ({ emptyDocument with status := some DriverDocumentStatus.rejected, comments := some ("bad") }) := by
  have hmem : seedDriver ∈ initialStore.drivers := by simp [initialStore, initialDrivers]
  obtain ⟨newd, hn, hget, -⟩ := verifyDocument_inserts_bare_entry initialStore ("1") ("doc1")
    DriverDocumentStatus.rejected (some ("bad")) seedDriver hmem rfl (by decide)
  exact ⟨newd, hn, hget⟩

/-- C8: `getPendingVerifications` returns exactly the drivers of the current
collection having at least one document with status `pending`; a driver with
an empty document map is never included.  The query is a pure function of the
store snapshot (it returns a filtered view and produces no new store state, so
it has no side effects by construction). -/
theorem getPendingVerifications_spec (s : DriverStore) :
    (∀ d, d ∈ getPendingVerifications s ↔
      d ∈ s.drivers ∧ ∃ p ∈ d.documents, p.2.status = some DriverDocumentStatus.pending)
    ∧ (∀ d, d.documents = [] → d ∉ getPendingVerifications s) := by
  have hmain : ∀ d, d ∈ getPendingVerifications s ↔
      d ∈ s.drivers ∧ ∃ p ∈ d.documents, p.2.status = some DriverDocumentStatus.pending := by
    intro d
    simp [getPendingVerifications, List.mem_filter, List.any_eq_true]
  refine ⟨hmain, ?_⟩
  intro d hd hmem
  rcases (hmain d).mp hmem with ⟨-, p, hp, -⟩
  rw [hd] at hp
  exact absurd hp (List.not_mem_nil p)

/-- C8 witness: a freshly created driver has an empty document map, and
`getPendingVerifications_spec` excludes it from the pending view. -/
theorem getPendingVerifications_spec_witness :
    mkNewDriver draft0 ("z3") ("T7") ∉ getPendingVerifications initialStore :=
  (getPendingVerifications_spec initialStore).2 (mkNewDriver draft0 ("z3") ("T7")) rfl

/-- C9 counterexample: `deleteDriver` completes without clearing the loading
flag (it never touches `loading` at all), and a successful `addDriver` leaves
a stale error message in place instead of clearing the error field — both
contradicting the claimed uniform set-before/clear-after discipline. -/
theorem loadingErrorDiscipline_counterexample :
    (deleteDriver loadingStore ("1")).loading = true
    ∧ (addDriver staleErrorStore draft0 ("z2") ("T6")).1.error
        = some ("previous failure") :=
  ⟨rfl, rfl⟩

/-- C9 (amended): only `addDriver`, `updateDriver` and `uploadDocument`
follow the loading discipline: each factors through `beginOp` (which sets the
loading flag before the body runs) and clears `loading` on completion; on
completion the error field is unchanged on success (NOT cleared) and is
populated with a message exactly when `updateDriver` fails.  `deleteDriver`,
`verifyDocument`, `assignVehicle`, `unassignVehicle` and
`updateOnboardingStatus` touch neither `loading` nor `error` at all. -/
theorem loadingErrorDiscipline (s : DriverStore) (draft : DriverDraft)
    (u : DriverPatch) (dd : DriverDocumentDraft)
    (i newId now v did docId : String) (st : DriverDocumentStatus)
    (cm : Option String) (ob : DriverOnboardingStatus) :
    (beginOp s).loading = true
    ∧ addDriver s draft newId now = addDriverBody (beginOp s) draft newId now
    ∧ (addDriver s draft newId now).1.loading = false
    ∧ (addDriver s draft newId now).1.error = s.error
    ∧ updateDriver s i u now = updateDriverBody (beginOp s) i u now
    ∧ (updateDriver s i u now).1.loading = false
    ∧ ((∀ d ∈ s.drivers, d.id ≠ i) →
        (updateDriver s i u now).1.error = some ("Failed to update driver"))
    ∧ ((∃ d ∈ s.drivers, d.id = i) → (updateDriver s i u now).1.error = s.error)
    ∧ uploadDocument s i dd docId now = uploadDocumentBody (beginOp s) i dd docId now
    ∧ (uploadDocument s i dd docId now).loading = false
    ∧ (uploadDocument s i dd docId now).error = s.error
    ∧ (deleteDriver s i).loading = s.loading
    ∧ (deleteDriver s i).error = s.error
    ∧ (verifyDocument s i did st cm).loading = s.loading
    ∧ (verifyDocument s i did st cm).error = s.error
    ∧ (assignVehicle s i v).loading = s.loading
    ∧ (assignVehicle s i v).error = s.error
    ∧ (unassignVehicle s i).loading = s.loading
    ∧ (unassignVehicle s i).error = s.error
    ∧ (updateOnboardingStatus s i ob).loading = s.loading
    ∧ (updateOnboardingStatus s i ob).error = s.error := by
  refine ⟨rfl, rfl, rfl, rfl, rfl, ?_, ?_, ?_, rfl, rfl, rfl, rfl, rfl, rfl, rfl,
    rfl, rfl, rfl, rfl, rfl, rfl⟩
  · cases hlm : lastMatch s.drivers i with
    | none => rw [updateDriver_notfound_eq s i u now hlm]
    | some w => rw [updateDriver_found_eq s i u now w hlm]
  · intro h
    rw [updateDriver_notfound_eq s i u now (lastMatch_eq_none s.drivers i h)]
  · intro h
    obtain ⟨w, hw, -, -⟩ := lastMatch_spec s.drivers i h
    rw [updateDriver_found_eq s i u now w hw]

/-- C9 witness: `loadingErrorDiscipline` applied to the seeded store: the
failed update at the absent id `"zz"` populates the error message, while the
successful update at id `"1"` leaves the error field as it was. -/
theorem loadingErrorDiscipline_witness :
    (updateDriver initialStore ("zz") (namePatch ("X")) ("T8")).1.error
        = some ("Failed to update driver")
    ∧ (updateDriver initialStore ("1") (namePatch ("X")) ("T8")).1.error
        = initialStore.error := by
  have h1 := loadingErrorDiscipline initialStore draft0 (namePatch ("X")) draftDoc0
    ("zz") ("z4") ("T8") ("V9") ("doc1") ("d8") DriverDocumentStatus.verified none
    DriverOnboardingStatus.pending
  have h2 := loadingErrorDiscipline initialStore draft0 (namePatch ("X")) draftDoc0
    ("1") ("z4") ("T8") ("V9") ("doc1") ("d8") DriverDocumentStatus.verified none
    DriverOnboardingStatus.pending
  have hex : ∃ d ∈ initialStore.drivers, d.id = ("1") :=
    ⟨seedDriver, by simp [initialStore, initialDrivers], rfl⟩
  exact ⟨h1.2.2.2.2.2.2.1 (by decide), h2.2.2.2.2.2.2.2.1 hex⟩
